import Mathlib

/-
Verification of the session/driver lifecycle of the linkedin-mcp-server
repository (src/linkedin_mcp_server/session_manager.py and
src/linkedin_mcp_server/drivers/chrome.py).

Python strings are embedded as `List Char`; the module-global dictionaries
`_sessions` and `active_drivers` become association lists inside a `World`
record; the external Selenium/linkedin-scraper behaviour (the outcome of each
`actions.login` call, the URLs the driver reports, the page source) is an
explicit environment parameter; raising becomes `Except`/`Option` results.
-/

set_option linter.unusedVariables false

namespace LinkedinMcp

/-- Python strings, embedded as lists of characters. -/
abbrev Str := List Char

/-- First-binding lookup in an association list (Python `dict[k]` /
`dict.get(k)` under the keys-unique invariant of a dict). -/
def lookupA {α : Type} (k : Str) : List (Str × α) → Option α
  | [] => none
  | (k', v) :: rest => if k' = k then some v else lookupA k rest

/-- Python `dict[k] = v`: replace the binding in place if the key is present
(insertion order preserved), else append. -/
def updOrAppend {α : Type} (k : Str) (v : α) : List (Str × α) → List (Str × α)
  | [] => [(k, v)]
  | (k', v') :: rest =>
      if k' = k then (k, v) :: rest else (k', v') :: updOrAppend k v rest

/-- Python `dict.pop(k, None)`: drop the first binding of `k`, if any. -/
def removeKey {α : Type} (k : Str) : List (Str × α) → List (Str × α)
  | [] => []
  | (k', v') :: rest =>
      if k' = k then rest else (k', v') :: removeKey k rest

/-- The keys-are-unique invariant every Python dict satisfies. -/
def keysNodup {α : Type} (l : List (Str × α)) : Prop :=
  (l.map Prod.fst).Nodup

instance {α : Type} (l : List (Str × α)) : Decidable (keysNodup l) := by
  unfold keysNodup; infer_instance

/-- Characters Python's `str.strip()` removes. -/
def isSpaceChar (c : Char) : Bool :=
  c = ' ' || c = '\t' || c = '\n' || c = '\r' || c = '\x0b' || c = '\x0c'

/-- Python `str.strip()`: drop whitespace from both ends. -/
def pyStrip (s : Str) : Str :=
  ((s.dropWhile isSpaceChar).reverse.dropWhile isSpaceChar).reverse

/-- Python `needle in hay` substring test. -/
def containsSub (hay needle : Str) : Bool :=
  match hay with
  | [] => needle.isEmpty
  | _ :: t => needle.isPrefixOf hay || containsSub t needle

/-- The canonical cookie-name marker `"li_at="`. -/
def liAt : Str := "li_at=".toList

/- ----------------------------------------------------------------------
drivers/chrome.py
---------------------------------------------------------------------- -/

/-- Outcome of one call to the external `actions.login(driver, cookie=...)`:
it returns normally, raises `TimeoutException`, raises the library's
ambiguous `InvalidCredentialsError` / "Cookie login failed" signal, or raises
some other exception. -/
inductive AttemptOutcome
  | ok
  | timeout
  | invalidCred
  | otherErr
deriving DecidableEq, Repr

/-- Environment of one authentication attempt: the outcomes the external
login routine produces on its first and (if reached) second invocation, the
URL the driver reports at the first status check (`current_url`), the URL
after the extra 2-second wait (`final_url`), the URL read by
`login_to_linkedin`'s classifier, and the page source it inspects. -/
structure LoginEnv where
  outcome1 : AttemptOutcome
  outcome2 : AttemptOutcome
  url1 : Str
  url2 : Str
  url3 : Str
  pageSource : Str
deriving DecidableEq, Repr

/-- chrome.py `_normalize_cookie_value`: strip a leading `li_at=` from the
cookie handed to the external login routine (`cookie.split("li_at=", 1)[1]`
under the `startswith` guard is exactly dropping the 6-character marker). -/
def _normalize_cookie_value (cookie : Str) : Str :=
  if liAt.isPrefixOf cookie then cookie.drop 6 else cookie

/-- The login-page markers of the status check:
`"login" in url or "uas/login" in url`. -/
def loginMarker (u : Str) : Bool :=
  containsSub u "login".toList || containsSub u "uas/login".toList

/-- The authenticated-area markers of the status check:
`any(ind in url for ind in ["feed", "mynetwork", "linkedin.com/in/", "/feed/"])`. -/
def authIndicator (u : Str) : Bool :=
  containsSub u "feed".toList || containsSub u "mynetwork".toList ||
    containsSub u "linkedin.com/in/".toList || containsSub u "/feed/".toList

/-- One round of `login_with_cookie`'s URL inspection: login marker beats the
authenticated-area markers; neither marker is inconclusive (`none`). -/
def checkUrlOnce (u : Str) : Option Bool :=
  if loginMarker u then some false
  else if authIndicator u then some true
  else none

/-- The verification phase of `login_with_cookie`: check `current_url`; when
inconclusive wait 2 seconds and check `final_url`, an inconclusive second
check returning `False`. -/
def verifyAuth (env : LoginEnv) : Bool :=
  match checkUrlOnce env.url1 with
  | some b => b
  | none => (checkUrlOnce env.url2).getD false

/-- Observable result of `login_with_cookie`: its boolean return value, how
many times `actions.login` was invoked, and the raw cookie value handed to
it. -/
structure LoginResult where
  success : Bool
  loginCalls : Nat
  handed : Str
deriving DecidableEq, Repr

/-- chrome.py `login_with_cookie`: retry loop with `max_retries = 1`.
A `TimeoutException` returns `False` at once (no retry); the library's
ambiguous invalid-credential signal breaks out to the URL verification after
a 2-second pause; any other exception is retried once, a second such
exception returning `False`; a normal return proceeds to verification. -/
def login_with_cookie (cookie : Str) (env : LoginEnv) : LoginResult :=
  let v := _normalize_cookie_value cookie
  match env.outcome1 with
  | .timeout => ⟨false, 1, v⟩
  | .ok => ⟨verifyAuth env, 1, v⟩
  | .invalidCred => ⟨verifyAuth env, 1, v⟩
  | .otherErr =>
    match env.outcome2 with
    | .timeout => ⟨false, 2, v⟩
    | .ok => ⟨verifyAuth env, 2, v⟩
    | .invalidCred => ⟨verifyAuth env, 2, v⟩
    | .otherErr => ⟨false, 2, v⟩

/-- The repository's login-related exception classes. -/
inductive LoginError
  | securityChallenge
  | captchaRequired
  | invalidCredentials
  | loginTimeout
  | rateLimit
  | twoFactor
deriving DecidableEq, Repr

/-- The classification `login_to_linkedin` computes inside its `try` block:
a `checkpoint/challenge` URL yields `SecurityChallengeError` when the page
source mentions "security check" and `CaptchaRequiredError` otherwise; any
other URL yields `InvalidCredentialsError`. -/
def classify_page (env : LoginEnv) : LoginError :=
  if containsSub env.url3 "checkpoint/challenge".toList then
    if containsSub (env.pageSource.map Char.toLower) "security check".toList then
      .securityChallenge
    else
      .captchaRequired
  else
    .invalidCredentials

/-- chrome.py lines 366-368: the `except Exception` clause of
`login_to_linkedin` catches whatever was raised inside the `try` block -
including the deliberately raised classification - and re-raises
`LoginTimeoutError(f"Login failed: ...")`, discarding the class. -/
def wrapAsLoginTimeout (e : LoginError) : LoginError := .loginTimeout

/-- Observable result of `login_to_linkedin`: the error it raises (`none` on
success), the classification computed before the `except` wrapping, whether
`clear_authentication()` was invoked, and the `login_with_cookie`
observables. -/
structure AuthResult where
  err : Option LoginError
  inner : Option LoginError
  keyringCleared : Bool
  loginCalls : Nat
  handed : Str
deriving DecidableEq, Repr

/-- chrome.py `login_to_linkedin`: return silently when `login_with_cookie`
reports success; otherwise call `clear_authentication()` (the keyring, not
the session store) and raise the page classification, which the enclosing
`except Exception` wraps into `LoginTimeoutError`. -/
def login_to_linkedin (authentication : Str) (env : LoginEnv) : AuthResult :=
  let r := login_with_cookie authentication env
  if r.success then
    ⟨none, none, false, r.loginCalls, r.handed⟩
  else
    let inner := classify_page env
    ⟨some (wrapAsLoginTimeout inner), some inner, true, r.loginCalls, r.handed⟩

/-- A pooled Chrome driver: its identity and whether its `quit()` raises. -/
structure Driver where
  id : Nat
  quitRaises : Bool
deriving DecidableEq, Repr

/-- The process state the embedded functions read and write: the session
manager's `_sessions` dict, the chrome module's `active_drivers` dict, the
identities of drivers constructed and not successfully quit, the next driver
identity, whether `clear_authentication()` has run, and cumulative counters
of `actions.login` calls and driver constructions, plus the credential most
recently handed to `login_to_linkedin`. -/
structure World where
  sessions : List (Str × Str)
  pool : List (Str × Driver)
  aliveIds : List Nat
  nextId : Nat
  keyringCleared : Bool
  loginCalls : Nat
  constructions : Nat
  lastAuth : Option Str
deriving DecidableEq, Repr

/-- Errors surfaced by driver resolution. -/
inductive ResolveError
  | driverInit
  | login (e : LoginError)
  | notFound
deriving DecidableEq, Repr

/-- Environment of one `get_or_create_driver` call: the authentication
attempt's environment, the `quit()` behaviour of the driver that would be
constructed, and whether `create_chrome_driver` raises `WebDriverException`. -/
structure ResolveEnv where
  login : LoginEnv
  newDriverQuitRaises : Bool
  constructionFails : Bool
deriving DecidableEq, Repr

/-- chrome.py `close_driver`: pop the pool entry; absent returns `False`;
then `quit()` - when it raises, the exception is swallowed and `False` is
returned (the entry stays popped, the underlying driver not torn down). -/
def close_driver (sid : Str) (w : World) : Bool × World :=
  match lookupA sid w.pool with
  | none => (false, w)
  | some d =>
    let w1 := { w with pool := removeKey sid w.pool }
    if d.quitRaises then (false, w1)
    else (true, { w1 with aliveIds := w1.aliveIds.erase d.id })

/-- chrome.py `close_all_drivers`: snapshot the keys, close each. -/
def closeDriversList : List Str → World → World
  | [], w => w
  | sid :: rest, w => closeDriversList rest (close_driver sid w).2

/-- chrome.py `close_all_drivers` over `list(active_drivers.keys())`. -/
def close_all_drivers (w : World) : World :=
  closeDriversList (w.pool.map Prod.fst) w

/-- chrome.py `create_chrome_driver`: construct a fresh driver (or raise
`WebDriverException` when the environment says construction fails). -/
def create_chrome_driver (env : ResolveEnv) (w : World) : Option Driver × World :=
  if env.constructionFails then (none, w)
  else
    let d : Driver := ⟨w.nextId, env.newDriverQuitRaises⟩
    (some d, { w with
      nextId := w.nextId + 1,
      aliveIds := w.aliveIds ++ [d.id],
      constructions := w.constructions + 1 })

/-- chrome.py `get_or_create_driver`: return the pooled driver when present;
otherwise construct one, run `login_to_linkedin`, and register the driver
only on success. On a login error the cleanup branch re-checks
`session_id in active_drivers` - the dict that never received the fresh
driver - and only quits what it finds there. -/
def get_or_create_driver (authentication : Str) (session_id : Str)
    (env : ResolveEnv) (w : World) : Except ResolveError Driver × World :=
  match lookupA session_id w.pool with
  | some d => (.ok d, w)
  | none =>
    match create_chrome_driver env w with
    | (none, w1) => (.error .driverInit, w1)
    | (some d, w1) =>
      let r := login_to_linkedin authentication env.login
      let w2 := { w1 with
        loginCalls := w1.loginCalls + r.loginCalls,
        keyringCleared := w1.keyringCleared || r.keyringCleared,
        lastAuth := some authentication }
      match r.err with
      | none => (.ok d, { w2 with pool := updOrAppend session_id d w2.pool })
      | some e =>
        match lookupA session_id w2.pool with
        | some d' =>
          let w3 := { w2 with
            pool := removeKey session_id w2.pool,
            aliveIds := if d'.quitRaises then w2.aliveIds
                        else w2.aliveIds.erase d'.id }
          (.error (.login e), w3)
        | none => (.error (.login e), w2)

/- ----------------------------------------------------------------------
session_manager.py
---------------------------------------------------------------------- -/

/-- Errors surfaced by the session manager. -/
inductive SmError
  | valueError
  | invalidCredentials
  | notFound
deriving DecidableEq, Repr

/-- session_manager.py `_normalize_cookie_for_storage`: strip whitespace,
reject the empty result (`ValueError`), keep a `li_at=`-prefixed value as the
stored form (raw = suffix), otherwise prefix `li_at=` (raw = trimmed input). -/
def _normalize_cookie_for_storage (cookie : Str) : Option (Str × Str) :=
  let normalized := pyStrip cookie
  if normalized = [] then none
  else if liAt.isPrefixOf normalized then some (normalized, normalized.drop 6)
  else some (liAt ++ normalized, normalized)

/-- session_manager.py `create_or_update_session`: normalize the cookie,
optionally validate it (`probeOk` stands for `test_cookie_validity`, whose
module is not part of the analysed sources; modelled from the spec's
"standalone authentication probe"), pick the caller's token or a generated
one (`genTok` stands for `secrets.token_urlsafe(16)`), close any existing
driver for the token, then store the normalized cookie. -/
def create_or_update_session (cookie : Str) (session_token : Option Str)
    (validate_cookie : Bool) (probeOk : Bool) (genTok : Str) (w : World) :
    Except SmError (Str × Bool) × World :=
  match _normalize_cookie_for_storage cookie with
  | none => (.error .valueError, w)
  | some (stored, raw) =>
    if validate_cookie && !probeOk then (.error .invalidCredentials, w)
    else
      let token := session_token.getD genTok
      let w1 := (close_driver token w).2
      (.ok (token, validate_cookie),
        { w1 with sessions := updOrAppend token stored w1.sessions })

/-- session_manager.py `get_session_cookie`: look the token up in
`_sessions`; `none` models the raised `CredentialsNotFoundError`. -/
def get_session_cookie (session_token : Str) (w : World) : Option Str :=
  lookupA session_token w.sessions

/-- session_manager.py `close_session`: pop the session record, close the
driver, return whether either existed (the driver side reporting `False`
when its `quit()` raised). -/
def close_session (session_token : Str) (w : World) : Bool × World :=
  let removed := lookupA session_token w.sessions
  let w1 := { w with sessions := removeKey session_token w.sessions }
  let (driver_closed, w2) := close_driver session_token w1
  (removed.isSome || driver_closed, w2)

/-- session_manager.py `close_all_sessions`: count and clear `_sessions`,
then close every pooled driver; return the count. -/
def close_all_sessions (w : World) : Nat × World :=
  let count := w.sessions.length
  let w1 := { w with sessions := [] }
  (count, close_all_drivers w1)

/-- Modelled from the spec: `resolve_driver(token)` is "Session Store.get
then Driver Pool.get_or_create" (the facade `safe_get_driver` lives in the
`error_handler` module, which is not among the analysed sources; this is the
thin composition the spec describes, with `NotFound` on a missing record). -/
def resolve_driver (token : Str) (env : ResolveEnv) (w : World) :
    Except ResolveError Driver × World :=
  match get_session_cookie token w with
  | none => (.error .notFound, w)
  | some cookie => get_or_create_driver cookie token env w

/- ----------------------------------------------------------------------
Interleaving model for concurrent get_or_create_driver (claim C7)
---------------------------------------------------------------------- -/

/-- Progress of one caller through `get_or_create_driver` for a fixed token:
before the `session_id in active_drivers` check; past a missed check; holding
a freshly constructed-and-logged-in driver; finished with a driver. -/
inductive Phase
  | start
  | missed
  | created (d : Nat)
  | done (d : Nat)
deriving DecidableEq, Repr

/-- Shared state of two callers racing through `get_or_create_driver` for
the same token: the pool entry for that token, the next driver identity, the
number of constructions, and each caller's phase. -/
structure RaceState where
  pool : Option Nat
  nextId : Nat
  constructions : Nat
  pa : Phase
  pb : Phase
deriving DecidableEq, Repr

/-- One atomic step of a caller. The source takes no lock around
`active_drivers`, so the membership check, the construction+login, and the
registration are separate atomic actions with arbitrary interleaving. -/
def stepPhase (p : Phase) (pool : Option Nat) (nextId constructions : Nat) :
    Phase × Option Nat × Nat × Nat :=
  match p with
  | .start =>
    match pool with
    | some d => (.done d, pool, nextId, constructions)
    | none => (.missed, pool, nextId, constructions)
  | .missed => (.created nextId, pool, nextId + 1, constructions + 1)
  | .created d => (.done d, some d, nextId, constructions)
  | .done d => (.done d, pool, nextId, constructions)

/-- Advance caller A (`false`) or caller B (`true`) by one atomic step. -/
def raceStep (who : Bool) (s : RaceState) : RaceState :=
  if who then
    let (p, pool, n, c) := stepPhase s.pb s.pool s.nextId s.constructions
    { s with pb := p, pool := pool, nextId := n, constructions := c }
  else
    let (p, pool, n, c) := stepPhase s.pa s.pool s.nextId s.constructions
    { s with pa := p, pool := pool, nextId := n, constructions := c }

/-- Run a schedule (a list of caller choices). -/
def runRace (sched : List Bool) (s : RaceState) : RaceState :=
  sched.foldl (fun acc who => raceStep who acc) s

/-- Both callers about to resolve a token with no pooled driver. -/
def raceInit : RaceState := ⟨none, 0, 0, .start, .start⟩

/-- The interleaving exhibiting the race: both callers pass the membership
check before either registers. -/
def raceSchedule : List Bool := [false, true, false, false, true, true]

/- ----------------------------------------------------------------------
Helper lemmas
---------------------------------------------------------------------- -/

instance {ε α : Type} [DecidableEq ε] [DecidableEq α] : DecidableEq (Except ε α)
  | .ok x, .ok y =>
      if h : x = y then .isTrue (by rw [h])
      else .isFalse (by intro hh; cases hh; exact h rfl)
  | .error x, .error y =>
      if h : x = y then .isTrue (by rw [h])
      else .isFalse (by intro hh; cases hh; exact h rfl)
  | .ok _, .error _ => .isFalse (by intro hh; cases hh)
  | .error _, .ok _ => .isFalse (by intro hh; cases hh)

theorem lookupA_updOrAppend_self {α : Type} (k : Str) (v : α)
    (l : List (Str × α)) : lookupA k (updOrAppend k v l) = some v := by
  induction l with
  | nil => simp [updOrAppend, lookupA]
  | cons p t ih =>
    obtain ⟨k', v'⟩ := p
    by_cases hk : k' = k
    · simp [updOrAppend, hk, lookupA]
    · simp [updOrAppend, hk, lookupA, ih]

theorem lookupA_eq_none_of_not_mem {α : Type} (k : Str) (l : List (Str × α))
    (h : k ∉ l.map Prod.fst) : lookupA k l = none := by
  induction l with
  | nil => rfl
  | cons p t ih =>
    obtain ⟨k', v'⟩ := p
    simp only [List.map_cons, List.mem_cons] at h
    push_neg at h
    have hk : ¬ k' = k := fun hh => h.1 hh.symm
    simp [lookupA, hk, ih h.2]

theorem lookupA_removeKey_self {α : Type} (k : Str) (l : List (Str × α))
    (h : keysNodup l) : lookupA k (removeKey k l) = none := by
  induction l with
  | nil => rfl
  | cons p t ih =>
    obtain ⟨k', v'⟩ := p
    unfold keysNodup at h
    simp only [List.map_cons, List.nodup_cons] at h
    by_cases hk : k' = k
    · subst hk
      simpa [removeKey] using lookupA_eq_none_of_not_mem k' t h.1
    · simp [removeKey, hk, lookupA, ih h.2]

theorem close_driver_preserves (sid : Str) (w : World) :
    (close_driver sid w).2.sessions = w.sessions ∧
    (close_driver sid w).2.nextId = w.nextId ∧
    (close_driver sid w).2.constructions = w.constructions ∧
    (close_driver sid w).2.loginCalls = w.loginCalls ∧
    (close_driver sid w).2.keyringCleared = w.keyringCleared ∧
    (close_driver sid w).2.lastAuth = w.lastAuth := by
  cases h : lookupA sid w.pool with
  | none => simp [close_driver, h]
  | some d => by_cases hq : d.quitRaises <;> simp [close_driver, h, hq]

theorem close_driver_pool_of_some (sid : Str) (d : Driver) (w : World)
    (h : lookupA sid w.pool = some d) :
    (close_driver sid w).2.pool = removeKey sid w.pool := by
  by_cases hq : d.quitRaises <;> simp [close_driver, h, hq]

theorem close_driver_pool_of_none (sid : Str) (w : World)
    (h : lookupA sid w.pool = none) :
    (close_driver sid w).2.pool = w.pool := by
  simp [close_driver, h]

theorem closeDriversList_sessions (l : List Str) : ∀ (w : World),
    (closeDriversList l w).sessions = w.sessions := by
  induction l with
  | nil => intro w; rfl
  | cons sid rest ih =>
    intro w
    rw [closeDriversList, ih]
    exact (close_driver_preserves sid w).1

theorem closeDriversList_empties : ∀ (l : List (Str × Driver)) (w : World),
    w.pool = l → keysNodup l →
    (closeDriversList (l.map Prod.fst) w).pool = [] := by
  intro l
  induction l with
  | nil =>
    intro w hw _
    simpa [closeDriversList] using hw
  | cons p t ih =>
    intro w hw hnd
    obtain ⟨k, d⟩ := p
    have hl : lookupA k w.pool = some d := by simp [hw, lookupA]
    have hpool : (close_driver k w).2.pool = t := by
      rw [close_driver_pool_of_some k d w hl, hw]
      simp [removeKey]
    have hnd' : keysNodup t := by
      unfold keysNodup at hnd ⊢
      simp only [List.map_cons, List.nodup_cons] at hnd
      exact hnd.2
    rw [List.map_cons, closeDriversList]
    exact ih (close_driver k w).2 hpool hnd'

theorem login_with_cookie_handed (c : Str) (env : LoginEnv) :
    (login_with_cookie c env).handed = _normalize_cookie_value c := by
  obtain ⟨o1, o2, u1, u2, u3, ps⟩ := env
  cases o1 <;> cases o2 <;> rfl

theorem login_with_cookie_eq_of_normalize_eq (c1 c2 : Str) (env : LoginEnv)
    (h : _normalize_cookie_value c1 = _normalize_cookie_value c2) :
    login_with_cookie c1 env = login_with_cookie c2 env := by
  simp [login_with_cookie, h]

theorem normalize_liAt_append (c : Str) :
    _normalize_cookie_value (liAt ++ c) = c := by
  have hp : liAt.isPrefixOf (liAt ++ c) = true := by
    simp [List.isPrefixOf_iff_prefix]
  have hlen : liAt.length = 6 := rfl
  simp only [_normalize_cookie_value, hp, if_true]
  rw [← hlen, List.drop_left]

theorem create_or_update_session_eq (cookie stored raw T genTok : Str)
    (w : World)
    (hnorm : _normalize_cookie_for_storage cookie = some (stored, raw)) :
    create_or_update_session cookie (some T) false true genTok w =
      (.ok (T, false),
        { (close_driver T w).2 with
            sessions := updOrAppend T stored (close_driver T w).2.sessions }) := by
  simp [create_or_update_session, hnorm]

/- ----------------------------------------------------------------------
Claim theorems
---------------------------------------------------------------------- -/

/-- C1: when the Authentication Flow raises a classified login failure while
`get_or_create_driver` is populating the pool for a token, nothing is
registered in the pool and the failure propagates - but the just-created
driver is NOT torn down: the cleanup branch re-checks
`session_id in active_drivers`, a dict that never received the fresh driver,
so its `quit()` is never reached and the driver identity `w.nextId` stays
alive after the call. This refutes the claim's teardown guarantee. -/
theorem c1_failed_login_leaks_live_driver
    (authentication T : Str) (env : ResolveEnv) (w : World)
    (hpool : lookupA T w.pool = none)
    (hcf : env.constructionFails = false)
    (hto : env.login.outcome1 = .timeout) :
    (get_or_create_driver authentication T env w).1 =
      .error (.login .loginTimeout) ∧
    lookupA T (get_or_create_driver authentication T env w).2.pool = none ∧
    (get_or_create_driver authentication T env w).2.aliveIds =
      w.aliveIds ++ [w.nextId] := by
  simp [get_or_create_driver, hpool, hcf, create_chrome_driver,
    login_to_linkedin, login_with_cookie, hto, wrapAsLoginTimeout]

/-- C1 witness: an empty pool, a successfully constructed driver (identity
0), and a login attempt that times out: the call fails, the pool stays
empty, and driver 0 is left alive. -/
theorem c1_witness :
    (lookupA ("t".toList) (⟨[], [], [], 0, false, 0, 0, none⟩ : World).pool
        = none ∧
      (⟨⟨.timeout, .ok, [], [], [], []⟩, false, false⟩
        : ResolveEnv).constructionFails = false ∧
      (⟨⟨.timeout, .ok, [], [], [], []⟩, false, false⟩
        : ResolveEnv).login.outcome1 = .timeout) ∧
    ((get_or_create_driver ("li_at=x".toList) ("t".toList)
        ⟨⟨.timeout, .ok, [], [], [], []⟩, false, false⟩
        ⟨[], [], [], 0, false, 0, 0, none⟩).1 =
      .error (.login .loginTimeout) ∧
    lookupA ("t".toList) (get_or_create_driver ("li_at=x".toList) ("t".toList)
        ⟨⟨.timeout, .ok, [], [], [], []⟩, false, false⟩
        ⟨[], [], [], 0, false, 0, 0, none⟩).2.pool = none ∧
    (get_or_create_driver ("li_at=x".toList) ("t".toList)
        ⟨⟨.timeout, .ok, [], [], [], []⟩, false, false⟩
        ⟨[], [], [], 0, false, 0, 0, none⟩).2.aliveIds = [] ++ [0]) :=
  ⟨⟨by decide, by decide, by decide⟩,
    c1_failed_login_leaks_live_driver ("li_at=x".toList) ("t".toList)
      ⟨⟨.timeout, .ok, [], [], [], []⟩, false, false⟩
      ⟨[], [], [], 0, false, 0, 0, none⟩
      (by decide) (by decide) (by decide)⟩

/-- C2 counterexample: token `"t"` stores cookie `"li_at=x"`, the pool is
empty, and the external login raises a page-load timeout. Resolving raises
`LoginTimeoutError` - not `InvalidCredentialsError` - and the Session Store
entry for `"t"` is still present afterwards, so the claim's classification
and its eviction guarantee both fail at this input. -/
theorem c2_counterexample :
    (resolve_driver ("t".toList)
        ⟨⟨.timeout, .ok, [], [], [], []⟩, false, false⟩
        ⟨[("t".toList, "li_at=x".toList)], [], [], 0, false, 0, 0, none⟩).1 =
      .error (.login .loginTimeout) ∧
    (resolve_driver ("t".toList)
        ⟨⟨.timeout, .ok, [], [], [], []⟩, false, false⟩
        ⟨[("t".toList, "li_at=x".toList)], [], [], 0, false, 0, 0, none⟩).1 ≠
      .error (.login .invalidCredentials) ∧
    lookupA ("t".toList) (resolve_driver ("t".toList)
        ⟨⟨.timeout, .ok, [], [], [], []⟩, false, false⟩
        ⟨[("t".toList, "li_at=x".toList)], [], [], 0, false, 0, 0,
          none⟩).2.sessions = some ("li_at=x".toList) := by
  exact ⟨by decide, by decide, by decide⟩

/-- C2 amended: a page-load timeout resolves the attempt to failure after
exactly one call to the external login routine (no retry); the classification
computed by `login_to_linkedin` is `InvalidCredentialsError`, but the
enclosing `except Exception` wraps it into `LoginTimeoutError` before it
propagates; `clear_authentication()` clears the keyring, while the Session
Store's entry for the token persists unchanged. -/
theorem c2_timeout_no_retry_store_persists
    (T stored : Str) (env : ResolveEnv) (w : World)
    (hs : lookupA T w.sessions = some stored)
    (hp : lookupA T w.pool = none)
    (hcf : env.constructionFails = false)
    (hto : env.login.outcome1 = .timeout)
    (hurl : containsSub env.login.url3 ("checkpoint/challenge".toList)
      = false) :
    (resolve_driver T env w).1 = .error (.login .loginTimeout) ∧
    (login_to_linkedin stored env.login).inner = some .invalidCredentials ∧
    (resolve_driver T env w).2.loginCalls = w.loginCalls + 1 ∧
    (resolve_driver T env w).2.sessions = w.sessions ∧
    (resolve_driver T env w).2.keyringCleared = true := by
  simp at hurl
  simp [resolve_driver, get_session_cookie, hs, get_or_create_driver, hp,
    hcf, create_chrome_driver, login_to_linkedin, login_with_cookie, hto,
    wrapAsLoginTimeout, classify_page, hurl]

/-- C2 amended witness: the concrete scenario of the counterexample
satisfies the amended statement. -/
theorem c2_witness :
    (lookupA ("t".toList)
        (⟨[("t".toList, "li_at=x".toList)], [], [], 0, false, 0, 0, none⟩
          : World).sessions = some ("li_at=x".toList)) ∧
    ((resolve_driver ("t".toList)
        ⟨⟨.timeout, .ok, [], [], [], []⟩, false, false⟩
        ⟨[("t".toList, "li_at=x".toList)], [], [], 0, false, 0, 0, none⟩).1 =
      .error (.login .loginTimeout) ∧
    (login_to_linkedin ("li_at=x".toList)
        (⟨.timeout, .ok, [], [], [], []⟩ : LoginEnv)).inner =
      some .invalidCredentials ∧
    (resolve_driver ("t".toList)
        ⟨⟨.timeout, .ok, [], [], [], []⟩, false, false⟩
        ⟨[("t".toList, "li_at=x".toList)], [], [], 0, false, 0, 0,
          none⟩).2.loginCalls = 0 + 1 ∧
    (resolve_driver ("t".toList)
        ⟨⟨.timeout, .ok, [], [], [], []⟩, false, false⟩
        ⟨[("t".toList, "li_at=x".toList)], [], [], 0, false, 0, 0,
          none⟩).2.sessions =
      (⟨[("t".toList, "li_at=x".toList)], [], [], 0, false, 0, 0, none⟩
        : World).sessions ∧
    (resolve_driver ("t".toList)
        ⟨⟨.timeout, .ok, [], [], [], []⟩, false, false⟩
        ⟨[("t".toList, "li_at=x".toList)], [], [], 0, false, 0, 0,
          none⟩).2.keyringCleared = true) :=
  ⟨by decide,
    c2_timeout_no_retry_store_persists ("t".toList) ("li_at=x".toList)
      ⟨⟨.timeout, .ok, [], [], [], []⟩, false, false⟩
      ⟨[("t".toList, "li_at=x".toList)], [], [], 0, false, 0, 0, none⟩
      (by decide) (by decide) (by decide) (by decide) (by decide)⟩

/-- C3: for a token that already has a pooled driver,
`create_or_update_session` with a new cookie pops that driver from the pool
before storing the new canonical credential, so the next resolve finds an
empty pool entry, constructs a fresh driver (a new identity, not the old
one), and authenticates with the newly stored credential. -/
theorem c3_replacement_evicts_and_reauths
    (T newCookie stored raw genTok : Str) (d : Driver) (env : ResolveEnv)
    (w : World)
    (hpool : lookupA T w.pool = some d)
    (hnodup : keysNodup w.pool)
    (hid : d.id < w.nextId)
    (hnorm : _normalize_cookie_for_storage newCookie = some (stored, raw))
    (hcf : env.constructionFails = false)
    (hok : env.login.outcome1 = .ok)
    (hurl : checkUrlOnce env.login.url1 = some true) :
    (create_or_update_session newCookie (some T) false true genTok w).1 =
      .ok (T, false) ∧
    lookupA T
      (create_or_update_session newCookie (some T) false true genTok w).2.pool
      = none ∧
    get_session_cookie T
      (create_or_update_session newCookie (some T) false true genTok w).2 =
      some stored ∧
    (resolve_driver T env
      (create_or_update_session newCookie (some T) false true genTok w).2).1 =
      .ok ⟨w.nextId, env.newDriverQuitRaises⟩ ∧
    d.id ≠ w.nextId ∧
    (resolve_driver T env
      (create_or_update_session newCookie (some T) false true genTok
        w).2).2.lastAuth = some stored ∧
    (resolve_driver T env
      (create_or_update_session newCookie (some T) false true genTok
        w).2).2.constructions = w.constructions + 1 := by
  have hcd := close_driver_preserves T w
  have h1 := create_or_update_session_eq newCookie stored raw T genTok w hnorm
  have hup : (create_or_update_session newCookie (some T) false true genTok
      w).2 =
      { (close_driver T w).2 with
          sessions := updOrAppend T stored (close_driver T w).2.sessions } := by
    rw [h1]
  have hpool2 : (create_or_update_session newCookie (some T) false true genTok
      w).2.pool = removeKey T w.pool := by
    rw [hup]; exact close_driver_pool_of_some T d w hpool
  have hlook : lookupA T (create_or_update_session newCookie (some T) false
      true genTok w).2.pool = none := by
    rw [hpool2]; exact lookupA_removeKey_self T w.pool hnodup
  have hsess : get_session_cookie T (create_or_update_session newCookie
      (some T) false true genTok w).2 = some stored := by
    rw [get_session_cookie, hup]
    exact lookupA_updOrAppend_self T stored _
  have hnext : (create_or_update_session newCookie (some T) false true genTok
      w).2.nextId = w.nextId := by
    rw [hup]; exact hcd.2.1
  have hcons : (create_or_update_session newCookie (some T) false true genTok
      w).2.constructions = w.constructions := by
    rw [hup]; exact hcd.2.2.1
  refine ⟨by rw [h1], hlook, hsess, ?_, Nat.ne_of_lt hid, ?_, ?_⟩
  · simp [resolve_driver, get_session_cookie] at hsess ⊢
    simp [hsess, get_or_create_driver, hlook, create_chrome_driver, hcf,
      login_to_linkedin, login_with_cookie, hok, verifyAuth, hurl, hnext]
  · simp [resolve_driver, get_session_cookie] at hsess ⊢
    simp [hsess, get_or_create_driver, hlook, create_chrome_driver, hcf,
      login_to_linkedin, login_with_cookie, hok, verifyAuth, hurl]
  · simp [resolve_driver, get_session_cookie] at hsess ⊢
    simp [hsess, get_or_create_driver, hlook, create_chrome_driver, hcf,
      login_to_linkedin, login_with_cookie, hok, verifyAuth, hurl, hcons]

/-- C3 witness: token `"t"` holds driver 0; replacing the credential with
`"newcookie"` evicts it, and the next resolve (login succeeding on a
`/feed/` URL) constructs and returns driver 1 authenticated with
`"li_at=newcookie"`. -/
theorem c3_witness :
    (lookupA ("t".toList)
        (⟨[("t".toList, "old".toList)], [("t".toList, ⟨0, false⟩)], [0], 1,
          false, 0, 1, none⟩ : World).pool = some ⟨0, false⟩ ∧
      keysNodup (⟨[("t".toList, "old".toList)], [("t".toList, ⟨0, false⟩)],
        [0], 1, false, 0, 1, none⟩ : World).pool ∧
      (0 : Nat) < 1 ∧
      _normalize_cookie_for_storage ("newcookie".toList) =
        some ("li_at=newcookie".toList, "newcookie".toList) ∧
      checkUrlOnce ("https://www.linkedin.com/feed/".toList) = some true) ∧
    ((create_or_update_session ("newcookie".toList) (some ("t".toList)) false
        true ("g".toList)
        ⟨[("t".toList, "old".toList)], [("t".toList, ⟨0, false⟩)], [0], 1,
          false, 0, 1, none⟩).1 = .ok (("t".toList), false) ∧
      lookupA ("t".toList) (create_or_update_session ("newcookie".toList)
        (some ("t".toList)) false true ("g".toList)
        ⟨[("t".toList, "old".toList)], [("t".toList, ⟨0, false⟩)], [0], 1,
          false, 0, 1, none⟩).2.pool = none ∧
      get_session_cookie ("t".toList) (create_or_update_session
        ("newcookie".toList) (some ("t".toList)) false true ("g".toList)
        ⟨[("t".toList, "old".toList)], [("t".toList, ⟨0, false⟩)], [0], 1,
          false, 0, 1, none⟩).2 = some ("li_at=newcookie".toList) ∧
      (resolve_driver ("t".toList)
        ⟨⟨.ok, .ok, "https://www.linkedin.com/feed/".toList, [], [], []⟩,
          false, false⟩
        (create_or_update_session ("newcookie".toList) (some ("t".toList))
          false true ("g".toList)
          ⟨[("t".toList, "old".toList)], [("t".toList, ⟨0, false⟩)], [0], 1,
            false, 0, 1, none⟩).2).1 = .ok ⟨1, false⟩ ∧
      (⟨0, false⟩ : Driver).id ≠ 1 ∧
      (resolve_driver ("t".toList)
        ⟨⟨.ok, .ok, "https://www.linkedin.com/feed/".toList, [], [], []⟩,
          false, false⟩
        (create_or_update_session ("newcookie".toList) (some ("t".toList))
          false true ("g".toList)
          ⟨[("t".toList, "old".toList)], [("t".toList, ⟨0, false⟩)], [0], 1,
            false, 0, 1, none⟩).2).2.lastAuth =
        some ("li_at=newcookie".toList) ∧
      (resolve_driver ("t".toList)
        ⟨⟨.ok, .ok, "https://www.linkedin.com/feed/".toList, [], [], []⟩,
          false, false⟩
        (create_or_update_session ("newcookie".toList) (some ("t".toList))
          false true ("g".toList)
          ⟨[("t".toList, "old".toList)], [("t".toList, ⟨0, false⟩)], [0], 1,
            false, 0, 1, none⟩).2).2.constructions = 1 + 1) :=
  ⟨⟨by decide, by decide, by decide, by decide, by decide⟩,
    c3_replacement_evicts_and_reauths ("t".toList) ("newcookie".toList)
      ("li_at=newcookie".toList) ("newcookie".toList) ("g".toList)
      ⟨0, false⟩
      ⟨⟨.ok, .ok, "https://www.linkedin.com/feed/".toList, [], [], []⟩,
        false, false⟩
      ⟨[("t".toList, "old".toList)], [("t".toList, ⟨0, false⟩)], [0], 1,
        false, 0, 1, none⟩
      (by decide) (by decide) (by decide) (by decide) (by decide) (by decide)
      (by decide)⟩

/-- C4: a cookie whose trimmed value is non-empty is stored in canonical
form - the trimmed value itself when it already starts with `li_at=`,
otherwise `li_at=` prepended - `get_session_cookie` returns exactly that
stored form, and storing the same cookie twice yields the same stored
value. -/
theorem c4_normalize_store_roundtrip
    (cookie T genTok : Str) (w : World)
    (hne : pyStrip cookie ≠ []) :
    (create_or_update_session cookie (some T) false true genTok w).1 =
      .ok (T, false) ∧
    get_session_cookie T
      (create_or_update_session cookie (some T) false true genTok w).2 =
      some (if liAt.isPrefixOf (pyStrip cookie) then pyStrip cookie
            else liAt ++ pyStrip cookie) ∧
    get_session_cookie T
      (create_or_update_session cookie (some T) false true genTok
        (create_or_update_session cookie (some T) false true genTok w).2).2 =
      some (if liAt.isPrefixOf (pyStrip cookie) then pyStrip cookie
            else liAt ++ pyStrip cookie) := by
  have hnorm : _normalize_cookie_for_storage cookie =
      some (if liAt.isPrefixOf (pyStrip cookie) then pyStrip cookie
            else liAt ++ pyStrip cookie,
            if liAt.isPrefixOf (pyStrip cookie) then (pyStrip cookie).drop 6
            else pyStrip cookie) := by
    unfold _normalize_cookie_for_storage
    by_cases hp : liAt.isPrefixOf (pyStrip cookie) <;> simp [hne, hp]
  have h1 := create_or_update_session_eq cookie _ _ T genTok w hnorm
  have h2 := create_or_update_session_eq cookie _ _ T genTok
    (create_or_update_session cookie (some T) false true genTok w).2 hnorm
  refine ⟨by rw [h1], ?_, ?_⟩
  · rw [get_session_cookie, h1]
    exact lookupA_updOrAppend_self T _ _
  · rw [get_session_cookie, h2]
    exact lookupA_updOrAppend_self T _ _

/-- C4 witness: cookie `"AQEtest123"` is stored as `"li_at=AQEtest123"` and
returned verbatim by `get_session_cookie`, on the second store as well. -/
theorem c4_witness :
    (pyStrip ("AQEtest123".toList) ≠ []) ∧
    ((create_or_update_session ("AQEtest123".toList) (some ("tok".toList))
        false true ("g".toList)
        ⟨[], [], [], 0, false, 0, 0, none⟩).1 = .ok (("tok".toList), false) ∧
      get_session_cookie ("tok".toList)
        (create_or_update_session ("AQEtest123".toList) (some ("tok".toList))
          false true ("g".toList) ⟨[], [], [], 0, false, 0, 0, none⟩).2 =
        some (if liAt.isPrefixOf (pyStrip ("AQEtest123".toList))
              then pyStrip ("AQEtest123".toList)
              else liAt ++ pyStrip ("AQEtest123".toList)) ∧
      get_session_cookie ("tok".toList)
        (create_or_update_session ("AQEtest123".toList) (some ("tok".toList))
          false true ("g".toList)
          (create_or_update_session ("AQEtest123".toList)
            (some ("tok".toList)) false true ("g".toList)
            ⟨[], [], [], 0, false, 0, 0, none⟩).2).2 =
        some (if liAt.isPrefixOf (pyStrip ("AQEtest123".toList))
              then pyStrip ("AQEtest123".toList)
              else liAt ++ pyStrip ("AQEtest123".toList))) ∧
    (if liAt.isPrefixOf (pyStrip ("AQEtest123".toList))
     then pyStrip ("AQEtest123".toList)
     else liAt ++ pyStrip ("AQEtest123".toList)) = "li_at=AQEtest123".toList :=
  ⟨by decide,
    c4_normalize_store_roundtrip ("AQEtest123".toList) ("tok".toList)
      ("g".toList) ⟨[], [], [], 0, false, 0, 0, none⟩ (by decide),
    by decide⟩

/-- C5 counterexample: the ambiguous invalid-credential signal followed by a
current URL that contains `/feed/` does NOT always yield success: the URL
`https://www.linkedin.com/uas/login?next=/feed/` contains `/feed/`, yet the
login-page check fires first and `login_with_cookie` returns failure. -/
theorem c5_counterexample :
    (⟨.invalidCred, .ok,
        "https://www.linkedin.com/uas/login?next=/feed/".toList,
        "https://www.linkedin.com/uas/login?next=/feed/".toList, [], []⟩
      : LoginEnv).outcome1 = .invalidCred ∧
    containsSub ("https://www.linkedin.com/uas/login?next=/feed/".toList)
      ("/feed/".toList) = true ∧
    (login_with_cookie ("c".toList)
      ⟨.invalidCred, .ok,
        "https://www.linkedin.com/uas/login?next=/feed/".toList,
        "https://www.linkedin.com/uas/login?next=/feed/".toList, [],
        []⟩).success = false := by
  exact ⟨by decide, by decide, by decide⟩

/-- C5 amended: after the library's ambiguous invalid-credential signal the
attempt does not fail immediately; when the driver's current URL contains
`/feed/` and does not contain a login-page marker (`login`, and hence
`uas/login`), `login_with_cookie` returns success, with a single call to the
external login routine. -/
theorem c5_ambiguous_then_feed_succeeds
    (cookie : Str) (env : LoginEnv)
    (ho : env.outcome1 = .invalidCred)
    (hf : containsSub env.url1 ("/feed/".toList) = true)
    (hl : loginMarker env.url1 = false) :
    (login_with_cookie cookie env).success = true ∧
    (login_with_cookie cookie env).loginCalls = 1 := by
  have hv : verifyAuth env = true := by
    simp only [loginMarker, Bool.or_eq_false_iff] at hl
    obtain ⟨hl1, hl2⟩ := hl
    simp at hf hl1 hl2
    simp [verifyAuth, checkUrlOnce, loginMarker, authIndicator, hf, hl1, hl2]
  simp [login_with_cookie, ho, hv]

/-- C5 amended witness: the ambiguous signal with the driver on
`https://www.linkedin.com/feed/` resolves to success. -/
theorem c5_witness :
    ((⟨.invalidCred, .ok, "https://www.linkedin.com/feed/".toList, [], [],
        []⟩ : LoginEnv).outcome1 = .invalidCred ∧
      containsSub ("https://www.linkedin.com/feed/".toList)
        ("/feed/".toList) = true ∧
      loginMarker ("https://www.linkedin.com/feed/".toList) = false) ∧
    ((login_with_cookie ("c".toList)
        ⟨.invalidCred, .ok, "https://www.linkedin.com/feed/".toList, [], [],
          []⟩).success = true ∧
      (login_with_cookie ("c".toList)
        ⟨.invalidCred, .ok, "https://www.linkedin.com/feed/".toList, [], [],
          []⟩).loginCalls = 1) :=
  ⟨⟨by decide, by decide, by decide⟩,
    c5_ambiguous_then_feed_succeeds ("c".toList)
      ⟨.invalidCred, .ok, "https://www.linkedin.com/feed/".toList, [], [],
        []⟩ (by decide) (by decide) (by decide)⟩

/-- C6: when the pool already holds a driver for the token,
`get_or_create_driver` returns exactly that driver and leaves the state
untouched (no construction, no authentication); a second sequential call
returns the same driver again. -/
theorem c6_pool_hit_reuses_driver
    (authentication T : Str) (env : ResolveEnv) (w : World) (d : Driver)
    (h : lookupA T w.pool = some d) :
    (get_or_create_driver authentication T env w).1 = .ok d ∧
    (get_or_create_driver authentication T env w).2 = w ∧
    (get_or_create_driver authentication T env
      (get_or_create_driver authentication T env w).2).1 = .ok d := by
  simp [get_or_create_driver, h]

/-- C6 witness: a pool holding driver 7 for token `"t"` returns driver 7 on
both of two sequential resolves, with the state unchanged. -/
theorem c6_witness :
    (lookupA ("t".toList)
        (⟨[("t".toList, "li_at=x".toList)], [("t".toList, ⟨7, false⟩)], [7],
          8, false, 3, 1, none⟩ : World).pool = some ⟨7, false⟩) ∧
    ((get_or_create_driver ("li_at=x".toList) ("t".toList)
        ⟨⟨.ok, .ok, [], [], [], []⟩, false, false⟩
        ⟨[("t".toList, "li_at=x".toList)], [("t".toList, ⟨7, false⟩)], [7],
          8, false, 3, 1, none⟩).1 = .ok ⟨7, false⟩ ∧
      (get_or_create_driver ("li_at=x".toList) ("t".toList)
        ⟨⟨.ok, .ok, [], [], [], []⟩, false, false⟩
        ⟨[("t".toList, "li_at=x".toList)], [("t".toList, ⟨7, false⟩)], [7],
          8, false, 3, 1, none⟩).2 =
        ⟨[("t".toList, "li_at=x".toList)], [("t".toList, ⟨7, false⟩)], [7],
          8, false, 3, 1, none⟩ ∧
      (get_or_create_driver ("li_at=x".toList) ("t".toList)
        ⟨⟨.ok, .ok, [], [], [], []⟩, false, false⟩
        (get_or_create_driver ("li_at=x".toList) ("t".toList)
          ⟨⟨.ok, .ok, [], [], [], []⟩, false, false⟩
          ⟨[("t".toList, "li_at=x".toList)], [("t".toList, ⟨7, false⟩)], [7],
            8, false, 3, 1, none⟩).2).1 = .ok ⟨7, false⟩) :=
  ⟨by decide,
    c6_pool_hit_reuses_driver ("li_at=x".toList) ("t".toList)
      ⟨⟨.ok, .ok, [], [], [], []⟩, false, false⟩
      ⟨[("t".toList, "li_at=x".toList)], [("t".toList, ⟨7, false⟩)], [7], 8,
        false, 3, 1, none⟩ ⟨7, false⟩ (by decide)⟩

/-- C7: because the source takes no lock around `active_drivers`, two
callers resolving the same token can both pass the membership check before
either registers: the schedule check-check-create-register-create-register
performs TWO driver constructions and leaves the callers holding different
drivers (0 and 1), the second registration having overwritten the first.
This contradicts the claimed one-construction serialization. -/
theorem c7_unsynchronized_pool_race :
    (runRace raceSchedule raceInit).constructions = 2 ∧
    (runRace raceSchedule raceInit).pa = .done 0 ∧
    (runRace raceSchedule raceInit).pb = .done 1 ∧
    (runRace raceSchedule raceInit).pool = some 1 := by
  exact ⟨by decide, by decide, by decide, by decide⟩

/-- C8: `close_all_sessions` returns the number of session records present
at the call and leaves both the Session Store and the Driver Pool empty. -/
theorem c8_close_all_sessions_spec (w : World) (h : keysNodup w.pool) :
    (close_all_sessions w).1 = w.sessions.length ∧
    (close_all_sessions w).2.sessions = [] ∧
    (close_all_sessions w).2.pool = [] := by
  refine ⟨rfl, ?_, ?_⟩
  · show (close_all_drivers { w with sessions := [] }).sessions = []
    rw [close_all_drivers, closeDriversList_sessions]
  · show (close_all_drivers { w with sessions := [] }).pool = []
    rw [close_all_drivers]
    exact closeDriversList_empties w.pool { w with sessions := [] } rfl h

/-- C8 witness: a store with 3 records and 2 live pooled drivers returns 3
and leaves both maps empty. -/
theorem c8_witness :
    keysNodup (⟨[("a".toList, "x".toList), ("b".toList, "y".toList),
        ("c".toList, "z".toList)],
      [("a".toList, ⟨0, false⟩), ("b".toList, ⟨1, false⟩)], [0, 1], 2, false,
      0, 2, none⟩ : World).pool ∧
    ((close_all_sessions
        ⟨[("a".toList, "x".toList), ("b".toList, "y".toList),
          ("c".toList, "z".toList)],
        [("a".toList, ⟨0, false⟩), ("b".toList, ⟨1, false⟩)], [0, 1], 2,
        false, 0, 2, none⟩).1 =
      (⟨[("a".toList, "x".toList), ("b".toList, "y".toList),
          ("c".toList, "z".toList)],
        [("a".toList, ⟨0, false⟩), ("b".toList, ⟨1, false⟩)], [0, 1], 2,
        false, 0, 2, none⟩ : World).sessions.length ∧
      (close_all_sessions
        ⟨[("a".toList, "x".toList), ("b".toList, "y".toList),
          ("c".toList, "z".toList)],
        [("a".toList, ⟨0, false⟩), ("b".toList, ⟨1, false⟩)], [0, 1], 2,
        false, 0, 2, none⟩).2.sessions = [] ∧
      (close_all_sessions
        ⟨[("a".toList, "x".toList), ("b".toList, "y".toList),
          ("c".toList, "z".toList)],
        [("a".toList, ⟨0, false⟩), ("b".toList, ⟨1, false⟩)], [0, 1], 2,
        false, 0, 2, none⟩).2.pool = []) ∧
    (⟨[("a".toList, "x".toList), ("b".toList, "y".toList),
        ("c".toList, "z".toList)],
      [("a".toList, ⟨0, false⟩), ("b".toList, ⟨1, false⟩)], [0, 1], 2, false,
      0, 2, none⟩ : World).sessions.length = 3 :=
  ⟨by decide,
    c8_close_all_sessions_spec
      ⟨[("a".toList, "x".toList), ("b".toList, "y".toList),
        ("c".toList, "z".toList)],
      [("a".toList, ⟨0, false⟩), ("b".toList, ⟨1, false⟩)], [0, 1], 2, false,
      0, 2, none⟩ (by decide),
    by decide⟩

/-- C9 counterexample: a token with a pooled driver (and no session record)
whose `quit()` raises: a driver existed, yet `close_session` returns
`false`, because `close_driver` reports `False` when the teardown raised.
The claimed "true iff either existed" fails at this input. -/
theorem c9_counterexample :
    (lookupA ("t".toList)
      (⟨[], [("t".toList, ⟨0, true⟩)], [0], 1, false, 0, 1, none⟩
        : World).pool).isSome = true ∧
    (close_session ("t".toList)
      ⟨[], [("t".toList, ⟨0, true⟩)], [0], 1, false, 0, 1, none⟩).1 =
      false := by
  exact ⟨by decide, by decide⟩

/-- C9 amended: `close_session` removes the Session Store entry and
deregisters the pooled driver in every case and never raises; it returns
true iff a session record existed or a pooled driver existed whose `quit()`
did not raise (a raising teardown makes the driver side report false);
closing an absent token is a no-op returning false. -/
theorem c9_close_session_spec (T : Str) (w : World)
    (hs : keysNodup w.sessions) (hp : keysNodup w.pool) :
    (close_session T w).1 =
      ((lookupA T w.sessions).isSome ||
        (match lookupA T w.pool with
         | some d => !d.quitRaises
         | none => false)) ∧
    lookupA T (close_session T w).2.sessions = none ∧
    lookupA T (close_session T w).2.pool = none := by
  cases h : lookupA T w.pool with
  | none =>
    simp [close_session, close_driver, h,
      lookupA_removeKey_self T w.sessions hs]
  | some d =>
    by_cases hq : d.quitRaises <;>
      simp [close_session, close_driver, h, hq,
        lookupA_removeKey_self T w.sessions hs,
        lookupA_removeKey_self T w.pool hp]

/-- C9 amended witness: a token with both a session record and a pooled
driver whose quit succeeds: `close_session` returns true and both entries
are gone. -/
theorem c9_witness :
    (keysNodup (⟨[("t".toList, "li_at=x".toList)],
        [("t".toList, ⟨0, false⟩)], [0], 1, false, 0, 1, none⟩
        : World).sessions ∧
      keysNodup (⟨[("t".toList, "li_at=x".toList)],
        [("t".toList, ⟨0, false⟩)], [0], 1, false, 0, 1, none⟩
        : World).pool) ∧
    ((close_session ("t".toList)
        ⟨[("t".toList, "li_at=x".toList)], [("t".toList, ⟨0, false⟩)], [0],
          1, false, 0, 1, none⟩).1 =
      ((lookupA ("t".toList)
          (⟨[("t".toList, "li_at=x".toList)], [("t".toList, ⟨0, false⟩)],
            [0], 1, false, 0, 1, none⟩ : World).sessions).isSome ||
        (match lookupA ("t".toList)
            (⟨[("t".toList, "li_at=x".toList)], [("t".toList, ⟨0, false⟩)],
              [0], 1, false, 0, 1, none⟩ : World).pool with
         | some d => !d.quitRaises
         | none => false)) ∧
      lookupA ("t".toList) (close_session ("t".toList)
        ⟨[("t".toList, "li_at=x".toList)], [("t".toList, ⟨0, false⟩)], [0],
          1, false, 0, 1, none⟩).2.sessions = none ∧
      lookupA ("t".toList) (close_session ("t".toList)
        ⟨[("t".toList, "li_at=x".toList)], [("t".toList, ⟨0, false⟩)], [0],
          1, false, 0, 1, none⟩).2.pool = none) :=
  ⟨⟨by decide, by decide⟩,
    c9_close_session_spec ("t".toList)
      ⟨[("t".toList, "li_at=x".toList)], [("t".toList, ⟨0, false⟩)], [0], 1,
        false, 0, 1, none⟩ (by decide) (by decide)⟩

/-- C10 counterexample: for `c = "li_at=x"`, the prefixed form
`login_with_cookie(d, "li_at=" + c)` hands exactly `c` to the external login
routine, but `login_with_cookie(d, c)` hands `"x"`: `_normalize_cookie_value`
strips the marker from the raw form too, so the two calls do not hand the
same value. -/
theorem c10_counterexample :
    (login_with_cookie (liAt ++ "li_at=x".toList)
      ⟨.ok, .ok, [], [], [], []⟩).handed = "li_at=x".toList ∧
    (login_with_cookie ("li_at=x".toList)
      ⟨.ok, .ok, [], [], [], []⟩).handed = "x".toList ∧
    ("li_at=x".toList ≠ "x".toList) := by
  exact ⟨by decide, by decide, by decide⟩

/-- C10 amended: for every cookie value `c` that does not itself start with
`li_at=`, `login_with_cookie` on the canonical `li_at=`-prefixed form and on
the raw form hand the same raw value `c` to the external login routine and
behave identically (same result, same number of login calls). -/
theorem c10_prefix_insensitive_auth
    (c : Str) (env : LoginEnv)
    (h : liAt.isPrefixOf c = false) :
    login_with_cookie (liAt ++ c) env = login_with_cookie c env ∧
    (login_with_cookie c env).handed = c := by
  have h2 : _normalize_cookie_value c = c := by
    simp [_normalize_cookie_value, h]
  have h1 : _normalize_cookie_value (liAt ++ c) = c := normalize_liAt_append c
  exact ⟨login_with_cookie_eq_of_normalize_eq _ _ env (by rw [h1, h2]),
    by rw [login_with_cookie_handed, h2]⟩

/-- C10 amended witness: for `c = "abc"` both forms behave identically and
hand `"abc"` to the external login routine. -/
theorem c10_witness :
    (liAt.isPrefixOf ("abc".toList) = false) ∧
    (login_with_cookie (liAt ++ "abc".toList)
        ⟨.ok, .ok, [], [], [], []⟩ =
      login_with_cookie ("abc".toList) ⟨.ok, .ok, [], [], [], []⟩ ∧
      (login_with_cookie ("abc".toList)
        ⟨.ok, .ok, [], [], [], []⟩).handed = "abc".toList) :=
  ⟨by decide,
    c10_prefix_insensitive_auth ("abc".toList)
      ⟨.ok, .ok, [], [], [], []⟩ (by decide)⟩

end LinkedinMcp
